import Mathlib

/-!
Shallow embedding of the `cm-gpt-service` backend (`src/server.js`) and
verification of its specification claims.

Modelling conventions:
* JavaScript strings are Lean `String`s; `undefined`/`null`-able fields are
  `Option`s (`none` = absent), and JavaScript truthiness of a string is
  "non-empty".
* The upstream completion API (`client.responses.create`) is modelled as an
  oracle `Nat → Params → Except String Rsp` indexed by the attempt number, so
  that a single invocation with retries can observe an arbitrary sequence of
  upstream outcomes; an error is carried as its message string.
* Numeric JSON fields that the code only threads through are modelled as `Int`
  (`count`, `max_output_tokens`); the floating-point `temperature` literals are
  carried as uninterpreted strings since no arithmetic is ever performed on them.
-/

set_option maxRecDepth 16384

namespace CmGpt

/-! ### Completion parameters (the argument of `createResponseWithFallback`) -/

/-- The `text` option object of the Responses API call (`text: { verbosity }`). -/
structure TextOpts where
  verbosity : Option String
deriving DecidableEq, Repr

/-- The `reasoning` option object of the Responses API call (`reasoning: { effort }`). -/
structure ReasoningOpts where
  effort : Option String
deriving DecidableEq, Repr

/-- The parameter object passed to `client.responses.create`. -/
structure Params where
  model : String
  input : String
  text : Option TextOpts
  reasoning : Option ReasoningOpts
  max_output_tokens : Option Int
  temperature : Option String
deriving DecidableEq, Repr

/-- The upstream response object; the handlers only ever read `output_text`. -/
structure Rsp where
  output_text : Option String
deriving DecidableEq, Repr

/-- JavaScript truthiness of `params?.text?.verbosity`: the `text` object is
present and carries a non-empty `verbosity` string. -/
def truthyVerbosity (p : Params) : Bool :=
  match p.text with
  | some t => match t.verbosity with
    | some v => v != ""
    | none => false
  | none => false

/-- JavaScript truthiness of `params?.reasoning?.effort`. -/
def truthyEffort (p : Params) : Bool :=
  match p.reasoning with
  | some r => match r.effort with
    | some v => v != ""
    | none => false
  | none => false

/-- `String.prototype.includes`: `sub` occurs contiguously inside `s`. -/
def strIncludes (s sub : String) : Bool :=
  decide (sub.data <:+: s.data)

/-- The error classification computed in the catch-block of
`createResponseWithFallback`:
`msg.includes('unknown') || msg.includes('unrecognized') ||
 msg.includes('invalid parameter') || msg.includes('unsupported')`
over the lower-cased error message.  (Computed by the source but not used.) -/
def isUnknownParam (e : String) : Bool :=
  let msg := e.toLower
  strIncludes msg "unknown" || strIncludes msg "unrecognized" ||
    strIncludes msg "invalid parameter" || strIncludes msg "unsupported"

/-- Fallback 1: `const p2 = { ...params, text: { ...(params.text || {}) } };
delete p2.text.verbosity;` — a shallow copy whose fresh `text` copy has
`verbosity` removed (the original object is untouched). -/
def stripVerb (p : Params) : Params :=
  { p with text := some { verbosity := none } }

/-- Fallback 2: `const p2 = { ...params }; delete p2.reasoning;` — a shallow
copy with the whole `reasoning` object removed. -/
def dropReasoning (p : Params) : Params :=
  { p with reasoning := none }

/-- `createResponseWithFallback(params, { stripVerbosity, stripReasoning })`.

Returns the final outcome together with the list of parameter objects sent
upstream, in order; attempt `i` of the list is resolved by `oracle` at index
`idx + i`, so a single invocation can see an arbitrary sequence of upstream
outcomes.  The generic `α` stands for the upstream response object. -/
def createResponseWithFallback {α : Type} (oracle : Nat → Params → Except String α)
    (idx : Nat) (params : Params) (stripVerbosity stripReasoning : Bool) :
    Except String α × List Params :=
  match oracle idx params with
  | .ok r => (.ok r, [params])
  | .error e =>
    let _isUnknownParam := isUnknownParam e
    if !stripVerbosity && truthyVerbosity params then
      let r2 := createResponseWithFallback oracle (idx + 1) (stripVerb params)
        true stripReasoning
      (r2.1, params :: r2.2)
    else if !stripReasoning && truthyEffort params then
      let r2 := createResponseWithFallback oracle (idx + 1) (dropReasoning params)
        true true
      (r2.1, params :: r2.2)
    else
      (.error e, [params])
termination_by (if stripVerbosity then 0 else 1) + (if stripReasoning then 0 else 1)
decreasing_by
  · simp_all
  · simp_all

/-! ### Output parsing (`linesToItems` and the suggest item filter)

All string manipulation is written structurally over `String.data`
(`List Char`) so that every definition evaluates by kernel reduction. -/

/-- Case folding used to model `String.prototype.toLowerCase` (ASCII fold;
the verb/level data this service folds is compared for equality only, so the
fold function is an interchangeable parameter of the dedup key). -/
def lowerStr (s : String) : String :=
  String.mk (s.data.map Char.toLower)

/-- Model of `String.prototype.toUpperCase` (ASCII fold, used on the one-letter
link level `i`/`r`/`m`/`a`). -/
def upperStr (s : String) : String :=
  String.mk (s.data.map Char.toUpper)

/-- Model of `String.prototype.trim`: remove leading and trailing whitespace. -/
def jsTrim (s : String) : String :=
  String.mk (((s.data.dropWhile Char.isWhitespace).reverse.dropWhile
    Char.isWhitespace).reverse)

/-- Split a character list on `/\r?\n/`. -/
def splitLinesCh : List Char → List (List Char)
  | [] => [[]]
  | '\r' :: '\n' :: rest => [] :: splitLinesCh rest
  | '\n' :: rest => [] :: splitLinesCh rest
  | c :: rest =>
    match splitLinesCh rest with
    | ln :: rest2 => (c :: ln) :: rest2
    | [] => [[c]]

/-- `String(text).split(/\r?\n/)`. -/
def splitLinesJS (text : String) : List String :=
  (splitLinesCh text.data).map String.mk

/-- `/^#+\s*/.test(s)`: since `\s*` may be empty, the test holds exactly when
the line starts with `'#'`. -/
def hashTest (s : String) : Bool :=
  match s.data with
  | '#' :: _ => true
  | _ => false

/-- `/^\d+[\).]\s*/`-replacement: strip one leading run of digits followed by
`')'` or `'.'` and any following whitespace. -/
def stripNumMarker (s : String) : String :=
  let cs := s.data
  let ds := cs.takeWhile Char.isDigit
  if ds.isEmpty then s
  else
    match cs.drop ds.length with
    | c :: rest => if c = ')' ∨ c = '.' then String.mk (rest.dropWhile Char.isWhitespace) else s
    | [] => s

/-- `/^[-*•]\s*/`-replacement: strip one leading bullet marker and any
following whitespace. -/
def stripBulletMarker (s : String) : String :=
  match s.data with
  | c :: rest =>
    if c = '-' ∨ c = '*' ∨ c = '•' then String.mk (rest.dropWhile Char.isWhitespace) else s
  | [] => s

/-- `linesToItems(text)` from `src/server.js`: split on line breaks, trim, drop
empty lines and lines matching `/^#+\s*/` (i.e. starting with `'#'`), then
strip a numbered-list marker and then a bullet marker from each line. -/
def linesToItems (text : String) : List String :=
  (((splitLinesJS text).map jsTrim).filter
      fun s => s != "" && !hashTest s).map
    fun s => stripBulletMarker (stripNumMarker s)

/-- Test of `/^CLO\s*\d+\s*:/`: `"CLO"`, optional whitespace, at least one
digit, optional whitespace, `':'`. -/
def cloTest (s : String) : Bool :=
  match s.data with
  | 'C' :: 'L' :: 'O' :: rest =>
    let r1 := rest.dropWhile Char.isWhitespace
    match r1 with
    | c :: _ =>
      if c.isDigit then
        match (r1.dropWhile Char.isDigit).dropWhile Char.isWhitespace with
        | ':' :: _ => true
        | _ => false
      else false
    | [] => false
  | _ => false

/-- `Array.prototype.slice(0, e)` with a possibly negative end index. -/
def jsSlice {α : Type} (l : List α) (e : Int) : List α :=
  if e < 0 then l.take ((l.length : Int) + e).toNat else l.take e.toNat

/-- The `while (items.length < count)` padding loop of `/api/suggest`.  The
body recomputes `extras` from `raw` on every iteration (as the source does)
and appends a synthesized `CLO<k>:` line built from its first element.  The
fuel argument is instantiated so that it runs out exactly when
`items.length < count` first fails. -/
def fillLoop (raw : String) (count : Int) (items : List String) : Nat → List String
  | 0 => items
  | fuel + 1 =>
    if (items.length : Int) < count then
      match (linesToItems raw).filter (fun s => !cloTest s) with
      | [] => items
      | e :: _ =>
        fillLoop raw count (items ++ ["CLO" ++ toString (items.length + 1) ++ ": " ++ e]) fuel
    else items

/-- The item list computed by `/api/suggest` from the raw output text and the
requested count: keep `CLO<n>:`-matching cleaned lines, truncate to `count`,
pad with the while-loop above, and truncate again. -/
def suggestItems (raw : String) (count : Int) : List String :=
  let base := jsSlice ((linesToItems raw).filter cloTest) count
  jsSlice (fillLoop raw count base (count - (base.length : Int)).toNat) count

/-! ### Verb pool normalization (`norm` / dedup / `VERB_LIST`) -/

/-- A raw `bloomVerbs[]` element as received from the client: a falsy value
(`null`/`undefined`/`0`/`false`), a plain string (where `""` is falsy), or an
object with optional `verb`/`level` string fields. -/
inductive BloomRaw where
  | nullish
  | str (s : String)
  | obj (verb : Option String) (level : Option String)
deriving DecidableEq, Repr

/-- A coerced `{ verb, level }` pair. -/
structure BloomEntry where
  verb : String
  level : String
deriving DecidableEq, Repr

/-- `x || d` on an optional string: `d` when the field is absent or empty. -/
def jsOrStr (a : Option String) (b : String) : String :=
  match a with
  | some s => if s = "" then b else s
  | none => b

/-- The `norm` coercion used by `/api/suggest` and `/api/evaluate`:
falsy entries become `null`; a string becomes `{ verb: x.trim(), level: '' }`;
an object keeps `String(x.verb || '').trim()`/`String(x.level || '').trim()`
and becomes `null` when the trimmed verb is empty. -/
def norm : BloomRaw → Option BloomEntry
  | .nullish => none
  | .str s => if s = "" then none else some { verb := jsTrim s, level := "" }
  | .obj verb level =>
    let v := jsTrim (jsOrStr verb "")
    let l := jsTrim (jsOrStr level "")
    if v = "" then none else some { verb := v, level := l }

/-- The static `LEVEL2BLOOM` table. -/
def LEVEL2BLOOM (l : String) : Option (List String) :=
  if l = "I" then some ["Remember", "Understand"]
  else if l = "R" then some ["Apply", "Analyze"]
  else if l = "M" then some ["Analyze", "Evaluate"]
  else if l = "A" then some ["Evaluate", "Create"]
  else none

/-- `LEVEL2BLOOM[linkLevel] || LEVEL2BLOOM.I`. -/
def targetLevelsOf (linkLevel : String) : List String :=
  (LEVEL2BLOOM linkLevel).getD ["Remember", "Understand"]

/-- `(bloomVerbs || []).map(norm).filter(Boolean)`. -/
def filteredVerbs (bloomVerbs : List BloomRaw) : List BloomEntry :=
  bloomVerbs.filterMap norm

/-- `filtered.filter(x => targetBloomLevels.includes(x.level))`, then
`if (byTarget.length > 0) filtered = byTarget`. -/
def poolVerbs (bloomVerbs : List BloomRaw) (targets : List String) : List BloomEntry :=
  let filtered := filteredVerbs bloomVerbs
  let byTarget := filtered.filter fun x => targets.contains x.level
  if byTarget.length > 0 then byTarget else filtered

/-- The `for (const it of ...) { if (!seen.has(k)) { seen.add(k); uniq.push(it) } }`
dedup loop, with the `seen` set carried explicitly. -/
def dedupAux (seen : List String) : List BloomEntry → List BloomEntry
  | [] => []
  | it :: rest =>
    let k := lowerStr it.verb
    if seen.contains k then dedupAux seen rest
    else it :: dedupAux (k :: seen) rest

/-- Deduplicate by lower-cased verb text, first occurrence wins. -/
def dedupByVerb (l : List BloomEntry) : List BloomEntry :=
  dedupAux [] l

/-- `Array.prototype.join(sep)`. -/
def joinWith (sep : String) : List String → String
  | [] => ""
  | [a] => a
  | a :: b :: rest => a ++ sep ++ joinWith sep (b :: rest)

/-- One entry of the prompt verb list: `` `${it.verb} (${it.level || '—'})` ``. -/
def renderVerb (it : BloomEntry) : String :=
  it.verb ++ " (" ++ (if it.level = "" then "—" else it.level) ++ ")"

/-- `uniq.slice(0, MAX_VERBS).map(...).join(', ')`; `maxVerbs` is 180 on the
suggest path and 150 on the evaluate path. -/
def verbsForPromptFn (maxVerbs : Nat) (bloomVerbs : List BloomRaw)
    (targets : List String) : String :=
  joinWith ", " (((dedupByVerb (poolVerbs bloomVerbs targets)).take maxVerbs).map renderVerb)

/-- The fixed fallback verb list. -/
def fallbackVerbs : List String :=
  ["Mô tả", "Giải thích", "Vận dụng", "Phân tích", "Đánh giá", "Xây dựng"]

/-- `VERB_LIST = verbsForPrompt || fallbackVerbs.join(', ')`. -/
def verbListFn (maxVerbs : Nat) (bloomVerbs : List BloomRaw)
    (targets : List String) : String :=
  let vfp := verbsForPromptFn maxVerbs bloomVerbs targets
  if vfp = "" then joinWith ", " fallbackVerbs else vfp

/-! ### Configuration, model selection, requests -/

/-- Process-wide configuration read from the environment at startup:
`MODEL_MODE` (already lower-cased) and the default `MODEL` (`'gpt-5'` when
unset). -/
structure Config where
  modelMode : String
  defaultModel : String
deriving DecidableEq, Repr

/-- `pickModel` without a client override. -/
def pickModelNoOverride (cfg : Config) (kind : String) : String :=
  if cfg.modelMode = "full" then "gpt-5"
  else if cfg.modelMode = "mini" then "gpt-5-mini"
  else if kind = "suggest" then "gpt-5-mini"
  else if kind = "evaluate" then "gpt-5"
  else cfg.defaultModel

/-- `pickModel(kind, overrideModel)`: a truthy override wins. -/
def pickModel (cfg : Config) (kind : String) (overrideModel : Option String) : String :=
  match overrideModel with
  | some m => if m = "" then pickModelNoOverride cfg kind else m
  | none => pickModelNoOverride cfg kind

/-- The `course` object; every field optional. `tong`/`credits` are carried as
their string rendering (the handler only ever applies `.toString()`). -/
structure Course where
  id : Option String
  label : Option String
  fullname : Option String
  tong : Option String
  credits : Option String
deriving DecidableEq, Repr

/-- `course = {}` destructuring default. -/
def emptyCourse : Course :=
  { id := none, label := none, fullname := none, tong := none, credits := none }

/-- `(course.label || course.id || '').trim()`. -/
def courseLabelOf (c : Course) : String :=
  jsTrim (jsOrStr c.label (jsOrStr c.id ""))

/-- `(course.fullname || '').trim()`. -/
def courseFullOf (c : Course) : String :=
  jsTrim (jsOrStr c.fullname "")

/-- `(course.tong ?? course.credits ?? '').toString()`. -/
def creditsOf (c : Course) : String :=
  c.tong.getD (c.credits.getD "")

/-- Body of a `/api/suggest` request; `none` = field absent (JavaScript
`undefined`). -/
structure SuggestReq where
  plo : Option String
  ploText : Option String
  course : Option Course
  level : Option String
  linkLevel : Option String
  bloomVerbs : Option (List BloomRaw)
  count : Option Int
  model : Option String
deriving DecidableEq, Repr

/-- Body of a `/api/evaluate` request. -/
structure EvaluateReq where
  plo : Option String
  ploText : Option String
  cloText : Option String
  level : Option String
  linkLevel : Option String
  course : Option Course
  bloomVerbs : Option (List BloomRaw)
  model : Option String
deriving DecidableEq, Repr

/-- Body of a `/api/raw` request. -/
structure RawReq where
  prompt : Option String
  max_tokens : Option Int
  model : Option String
deriving DecidableEq, Repr

/-- Template interpolation `${x}` of a field that has no destructuring
default: an absent (`undefined`) field renders as the literal text
`undefined`. -/
def jsInterp (o : Option String) : String :=
  o.getD "undefined"

/-- `const LEVEL = linkLevelFromBody ?? levelFromBody ?? 'I';
const linkLevel = String(LEVEL).toUpperCase();` -/
def linkLevelOf (linkLevel level : Option String) : String :=
  upperStr (linkLevel.getD (level.getD "I"))

/-- `count = 6` destructuring default: applied only when the field is absent. -/
def reqCount (count : Option Int) : Int :=
  count.getD 6

/-! ### Prompt builders -/

/-- The `/api/suggest` prompt template (the backtick literal of the handler,
followed by `.trim()`), with every `${...}` interpolation spelled out. -/
def buildSuggestPrompt (req : SuggestReq) : String :=
  let count := reqCount req.count
  let linkLevel := linkLevelOf req.linkLevel req.level
  let targets := targetLevelsOf linkLevel
  let vl := verbListFn 180 (req.bloomVerbs.getD []) targets
  let c := req.course.getD emptyCourse
  jsTrim ("\n" ++
    "Bạn là chuyên gia xây dựng chuẩn đầu ra học phần y khoa tích hợp Y học hiện đại (YHHĐ) và Y học cổ truyền (YHCT).\n" ++
    "\n" ++
    "Nhiệm vụ: đề xuất " ++ toString count ++ " CLO bằng tiếng Việt cho học phần \"" ++
      courseLabelOf c ++ " — " ++ courseFullOf c ++ "\" (TC: " ++ creditsOf c ++ ").\n" ++
    "\n" ++
    "Mỗi CLO đúng chuẩn:\n" ++
    "- Bắt đầu bằng một ĐỘNG TỪ Bloom thuộc mức " ++ linkLevel ++
      " (chỉ chọn trong danh sách SAU; không lặp lại động từ nếu có thể).\n" ++
    "- Phù hợp và thể hiện rõ PLO " ++ jsInterp req.plo ++ ": " ++ req.ploText.getD "" ++ "\n" ++
    "- Bám sát đặc thù học phần này (thuật ngữ, quy trình, ca lâm sàng, đối tượng người bệnh…).\n" ++
    "- TÍNH ĐO LƯỜNG: nêu điều kiện/tiêu chí kiểm tra (ví dụ: theo hướng dẫn quốc gia, ≥80% tình huống chuẩn, trong 10 phút, dùng thước đo X, theo phác đồ Y…).\n" ++
    "- Với chương trình YHCT + YHHĐ: nếu thích hợp, thể hiện TÍCH HỢP (so sánh, phối hợp, chỉ định/chống chỉ định của cả hai hệ).\n" ++
    "\n" ++
    "Ràng buộc phong cách:\n" ++
    "- Mỗi CLO chỉ 1 ý (không nối “và”), tối đa 25–30 từ, viết súc tích.\n" ++
    "- Không giải thích thêm, không bullet, không đánh số bằng dấu chấm; mỗi CLO trên MỘT DÒNG dạng: CLOx: <nội dung>.\n" ++
    "\n" ++
    "DANH SÁCH ĐỘNG TỪ CHO PHÉP (chỉ dùng các từ này, ưu tiên phù hợp mức " ++
      linkLevel ++ "): " ++ vl ++ "\n" ++
    "\n" ++
    "Trả về đúng " ++ toString count ++ " dòng, lần lượt: CLO1:, CLO2:, ..., CLO" ++
      toString count ++ ":.\n")

/-- The `/api/evaluate` prompt template, with every interpolation spelled
out. -/
def buildEvaluatePrompt (req : EvaluateReq) : String :=
  let linkLevel := linkLevelOf req.linkLevel req.level
  let targets := targetLevelsOf linkLevel
  let vl := verbListFn 150 (req.bloomVerbs.getD []) targets
  let c := req.course.getD emptyCourse
  jsTrim ("\n" ++
    "Bạn là chuyên gia xây dựng & thẩm định CLO cho chương trình bác sĩ tích hợp Y học hiện đại (YHHD) và Y học cổ truyền (YHCT).\n" ++
    "\n" ++
    "BỐI CẢNH\n" ++
    "- Học phần: \"" ++ courseLabelOf c ++ " — " ++ courseFullOf c ++ "\" (TC: " ++
      creditsOf c ++ ")\n" ++
    "- PLO liên quan: " ++ jsInterp req.plo ++ ": " ++ req.ploText.getD "" ++ "\n" ++
    "- Mức liên kết PLO–COURSE: " ++ linkLevel ++ " (I/R/M/A)\n" ++
    "- Danh sách ĐỘNG TỪ Bloom cho phép (ưu tiên đúng bậc " ++ linkLevel ++ "): " ++ vl ++ "\n" ++
    "\n" ++
    "NHIỆM VỤ\n" ++
    "ĐÁNH GIÁ nội dung CLO sau (tiếng Việt):\n" ++
    "«" ++ req.cloText.getD "" ++ "»\n" ++
    "\n" ++
    "YÊU CẦU ĐẦU RA — TRẢ KẾT QUẢ NGẮN GỌN, TIẾNG VIỆT, THEO ĐÚNG CÁC MỤC:\n" ++
    "1) **Phán quyết** (Cao/Vừa/Thấp) về mức phù hợp PLO & học phần + 1 câu giải thích.\n" ++
    "2) **Rubric (0–4 điểm từng tiêu chí; tổng quy ra /100)**:\n" ++
    "   - PLO alignment: mức thể hiện đúng ý PLO (0–4)\n" ++
    "   - Bloom & động từ: CLO mở đầu bằng động từ trong danh sách? bậc đúng mức " ++
      linkLevel ++ "? (0–4)\n" ++
    "   - Tính đo lường: có tiêu chí/chuẩn/nguỡng/thời gian/công cụ đo? (0–4)\n" ++
    "   - Phù hợp học phần: có thuật ngữ, quy trình, đối tượng người bệnh của học phần? (0–4)\n" ++
    "   - Tích hợp YHCT+YHHD (nếu phù hợp): so sánh/phối hợp/chỉ định–chống chỉ định? (0–4)\n" ++
    "   Viết dạng: Điểm: a,b,c,d,e; Tổng: X/20 → Y/100.\n" ++
    "3) **Điểm mạnh** (2–4 gạch đầu dòng ngắn).\n" ++
    "4) **Vấn đề & cách sửa** (2–4 gạch đầu dòng, hành động cụ thể).\n" ++
    "5) **Đề xuất phiên bản CLO đã chỉnh** (1 dòng, ≤ 25–30 từ, đúng 1 ý, bắt đầu bằng một ĐỘNG TỪ trong danh sách; có tiêu chí đo lường; nếu phù hợp, thể hiện tích hợp YHCT+YHHD). Định dạng: CLO*: <nội dung>.\n" ++
    "6) **Cảnh báo rủi ro** (nếu có: mơ hồ, 2 ý trong 1 CLO, không đo lường, sai bậc Bloom…).\n" ++
    "\n" ++
    "QUY TẮC\n" ++
    "- Ngắn gọn, rõ, không kèm giải thích ngoài các mục trên.\n" ++
    "- Không thêm bullet cho tiêu đề; dùng bullet ngắn gọn trong mục 3) và 4).\n" ++
    "- Luôn giữ tiếng Việt và đúng ngữ cảnh YHCT + YHHD.\n")

/-! ### Route handlers -/

/-- A JSON response: an HTTP status together with the body the handler sends. -/
inductive ApiBody where
  | suggestOk (items : List String) (raw : String) (model : String)
  | textOk (text : String) (model : String)
  | errTag (tag : String)
deriving DecidableEq, Repr

/-- The response a handler produces (`res.status(...).json(...)`;
`res.json(...)` alone has status 200). -/
structure HttpResp where
  status : Nat
  body : ApiBody
deriving DecidableEq, Repr

/-- The completion-parameter object built by `/api/suggest`. -/
def suggestParams (cfg : Config) (req : SuggestReq) : Params :=
  { model := pickModel cfg "suggest" req.model
    input := buildSuggestPrompt req
    text := some { verbosity := some "low" }
    reasoning := some { effort := some "minimal" }
    max_output_tokens := some 900
    temperature := some "0.4" }

/-- The `/api/suggest` handler: build the prompt, call the invoker, parse the
output (`rsp.output_text || ''`), and answer; any invoker failure is caught
and mapped to `500 {error:'suggest_failed'}`. -/
def suggestHandler (cfg : Config) (oracle : Nat → Params → Except String Rsp)
    (req : SuggestReq) : HttpResp :=
  let modelName := pickModel cfg "suggest" req.model
  match createResponseWithFallback oracle 0 (suggestParams cfg req) false false with
  | (.ok rsp, _) =>
    let raw := rsp.output_text.getD ""
    { status := 200, body := .suggestOk (suggestItems raw (reqCount req.count)) raw modelName }
  | (.error _, _) => { status := 500, body := .errTag "suggest_failed" }

/-- The completion-parameter object built by `/api/evaluate`. -/
def evaluateParams (cfg : Config) (req : EvaluateReq) : Params :=
  { model := pickModel cfg "evaluate" req.model
    input := buildEvaluatePrompt req
    text := some { verbosity := some "medium" }
    reasoning := some { effort := some "medium" }
    max_output_tokens := some 600
    temperature := some "0.2" }

/-- The `/api/evaluate` handler. -/
def evaluateHandler (cfg : Config) (oracle : Nat → Params → Except String Rsp)
    (req : EvaluateReq) : HttpResp :=
  let modelName := pickModel cfg "evaluate" req.model
  match createResponseWithFallback oracle 0 (evaluateParams cfg req) false false with
  | (.ok rsp, _) =>
    { status := 200, body := .textOk (rsp.output_text.getD "") modelName }
  | (.error _, _) => { status := 500, body := .errTag "evaluate_failed" }

/-- The completion-parameter object built by `/api/raw`
(`model || DEFAULT_MODEL`, no `reasoning`, no `temperature`). -/
def rawParams (cfg : Config) (req : RawReq) : Params :=
  { model := jsOrStr req.model cfg.defaultModel
    input := req.prompt.getD ""
    text := some { verbosity := some "low" }
    reasoning := none
    max_output_tokens := some (req.max_tokens.getD 600)
    temperature := none }

/-- The `/api/raw` handler. -/
def rawHandler (cfg : Config) (oracle : Nat → Params → Except String Rsp)
    (req : RawReq) : HttpResp :=
  let modelName := jsOrStr req.model cfg.defaultModel
  match createResponseWithFallback oracle 0 (rawParams cfg req) false false with
  | (.ok rsp, _) =>
    { status := 200, body := .textOk (rsp.output_text.getD "") modelName }
  | (.error _, _) => { status := 500, body := .errTag "raw_failed" }

/-! ### Values used to instantiate theorems at concrete inputs -/

/-- An upstream oracle that fails every attempt with message `boom`. -/
def oFailW : Nat → Params → Except String Rsp :=
  fun _ _ => .error "boom"

/-- An upstream oracle that always succeeds with no `output_text`. -/
def oEmptyW : Nat → Params → Except String Rsp :=
  fun _ _ => .ok { output_text := none }

/-- A parameter object carrying both optional GPT-5 hint fields. -/
def pW : Params :=
  { model := "m", input := "i", text := some { verbosity := some "low" },
    reasoning := some { effort := some "minimal" }, max_output_tokens := some 900,
    temperature := some "0.4" }

/-- A configuration with `MODEL_MODE=auto` and the default model. -/
def cfgW : Config :=
  { modelMode := "auto", defaultModel := "gpt-5" }

/-- A `/api/suggest` body with every field absent. -/
def noneSuggestReq : SuggestReq :=
  { plo := none, ploText := none, course := none, level := none, linkLevel := none,
    bloomVerbs := none, count := none, model := none }

/-- A `/api/evaluate` body with every field absent. -/
def noneEvaluateReq : EvaluateReq :=
  { plo := none, ploText := none, cloText := none, level := none, linkLevel := none,
    course := none, bloomVerbs := none, model := none }

/-- A `/api/raw` body with every field absent. -/
def noneRawReq : RawReq :=
  { prompt := none, max_tokens := none, model := none }

/-- A verb pool none of whose levels matches the `Apply`/`Analyze` targets. -/
def bvW : List BloomRaw :=
  [.obj (some "Mô tả") (some "Remember"), .str "Mô tả", .obj (some "Giải thích") none]

/-- The permitted cognitive levels of link level `R`. -/
def targetsW : List String :=
  ["Apply", "Analyze"]

/-- Outcome shapes agree pointwise: same successes, errors allowed to carry
different messages. -/
def SameShape {α : Type} (o₁ o₂ : Nat → Params → Except String α) : Prop :=
  ∀ i q, (∃ r, o₁ i q = .ok r ∧ o₂ i q = .ok r) ∨
    (∃ e₁ e₂, o₁ i q = .error e₁ ∧ o₂ i q = .error e₂)

/-! ### Step lemmas for the fallback invoker -/

theorem cRWF_ok {α : Type} {o : Nat → Params → Except String α} {idx : Nat}
    {p : Params} {r : α} (h : o idx p = .ok r) (sv sr : Bool) :
    createResponseWithFallback o idx p sv sr = (.ok r, [p]) := by
  rw [createResponseWithFallback, h]

theorem cRWF_err_strip1 {α : Type} {o : Nat → Params → Except String α} {idx : Nat}
    {p : Params} {e : String} (h : o idx p = .error e)
    (hv : truthyVerbosity p = true) (sr : Bool) :
    createResponseWithFallback o idx p false sr =
      ((createResponseWithFallback o (idx + 1) (stripVerb p) true sr).1,
        p :: (createResponseWithFallback o (idx + 1) (stripVerb p) true sr).2) := by
  rw [createResponseWithFallback, h]
  simp [hv]

theorem cRWF_err_strip2 {α : Type} {o : Nat → Params → Except String α} {idx : Nat}
    {p : Params} {e : String} {sv : Bool} (h : o idx p = .error e)
    (hcond : (!sv && truthyVerbosity p) = false) (he : truthyEffort p = true) :
    createResponseWithFallback o idx p sv false =
      ((createResponseWithFallback o (idx + 1) (dropReasoning p) true true).1,
        p :: (createResponseWithFallback o (idx + 1) (dropReasoning p) true true).2) := by
  rw [createResponseWithFallback, h]
  simp [hcond, he]

theorem cRWF_err_term {α : Type} {o : Nat → Params → Except String α} {idx : Nat}
    {p : Params} {e : String} {sv sr : Bool} (h : o idx p = .error e)
    (h1 : (!sv && truthyVerbosity p) = false) (h2 : (!sr && truthyEffort p) = false) :
    createResponseWithFallback o idx p sv sr = (.error e, [p]) := by
  rw [createResponseWithFallback, h]
  simp [h1, h2]

/-- A public invocation (both strip flags false) sends one of exactly four
possible attempt sequences upstream. -/
theorem cRWF_trace_cases {α : Type} (o : Nat → Params → Except String α) (p : Params) :
    (createResponseWithFallback o 0 p false false).2 = [p] ∨
    (createResponseWithFallback o 0 p false false).2 = [p, stripVerb p] ∨
    (createResponseWithFallback o 0 p false false).2 = [p, dropReasoning p] ∨
    (createResponseWithFallback o 0 p false false).2 =
      [p, stripVerb p, dropReasoning (stripVerb p)] := by
  cases h0 : o 0 p with
  | ok r => left; rw [cRWF_ok h0]
  | error e =>
    cases hv : truthyVerbosity p with
    | false =>
      cases he : truthyEffort p with
      | false =>
        left
        rw [cRWF_err_term h0 (by simp [hv]) (by simp [he])]
      | true =>
        rw [cRWF_err_strip2 h0 (by simp [hv]) he]
        cases h1 : o 1 (dropReasoning p) with
        | ok r =>
          right; right; left
          rw [cRWF_ok h1]
        | error e1 =>
          right; right; left
          rw [cRWF_err_term h1 (by simp) (by simp)]
    | true =>
      rw [cRWF_err_strip1 h0 hv]
      cases h1 : o 1 (stripVerb p) with
      | ok r =>
        right; left
        rw [cRWF_ok h1]
      | error e1 =>
        cases he : truthyEffort (stripVerb p) with
        | false =>
          right; left
          rw [cRWF_err_term h1 (by simp) (by simp [he])]
        | true =>
          rw [cRWF_err_strip2 h1 (by simp) he]
          cases h2 : o 2 (dropReasoning (stripVerb p)) with
          | ok r =>
            right; right; right
            rw [cRWF_ok h2]
          | error e2 =>
            right; right; right
            rw [cRWF_err_term h2 (by simp) (by simp)]

/-- C3: for every completion-parameter value and every sequence of upstream
outcomes, `createResponseWithFallback` (invoked with both strip flags false,
as all callers do) attempts the upstream call at most three times — i.e. at
most two retries — and its result is exactly the outcome the upstream oracle
produced for the final attempt, returned or re-raised with no further
retry. -/
theorem claim3_retry_bound {α : Type} (o : Nat → Params → Except String α) (p : Params) :
    (createResponseWithFallback o 0 p false false).2 ≠ [] ∧
    (createResponseWithFallback o 0 p false false).2.length ≤ 3 ∧
    (createResponseWithFallback o 0 p false false).1 =
      o ((createResponseWithFallback o 0 p false false).2.length - 1)
        ((createResponseWithFallback o 0 p false false).2.getLastD p) := by
  cases h0 : o 0 p with
  | ok r => rw [cRWF_ok h0]; simp [h0]
  | error e =>
    cases hv : truthyVerbosity p with
    | false =>
      cases he : truthyEffort p with
      | false =>
        rw [cRWF_err_term h0 (by simp [hv]) (by simp [he])]
        simp [h0]
      | true =>
        rw [cRWF_err_strip2 h0 (by simp [hv]) he]
        cases h1 : o 1 (dropReasoning p) with
        | ok r => rw [cRWF_ok h1]; simp [h1]
        | error e1 =>
          rw [cRWF_err_term h1 (by simp) (by simp)]
          simp [h1]
    | true =>
      rw [cRWF_err_strip1 h0 hv]
      cases h1 : o 1 (stripVerb p) with
      | ok r => rw [cRWF_ok h1]; simp [h1]
      | error e1 =>
        cases he : truthyEffort (stripVerb p) with
        | false =>
          rw [cRWF_err_term h1 (by simp) (by simp [he])]
          simp [h1]
        | true =>
          rw [cRWF_err_strip2 h1 (by simp) he]
          cases h2 : o 2 (dropReasoning (stripVerb p)) with
          | ok r => rw [cRWF_ok h2]; simp [h2]
          | error e2 =>
            rw [cRWF_err_term h2 (by simp) (by simp)]
            simp [h2]

theorem traceIndep_tt {α : Type} {o₁ o₂ : Nat → Params → Except String α}
    (H : SameShape o₁ o₂) (idx : Nat) (p : Params) :
    (createResponseWithFallback o₁ idx p true true).2 =
      (createResponseWithFallback o₂ idx p true true).2 := by
  rcases H idx p with ⟨r, h1, h2⟩ | ⟨e1, e2, h1, h2⟩
  · rw [cRWF_ok h1, cRWF_ok h2]
  · rw [cRWF_err_term h1 (by simp) (by simp), cRWF_err_term h2 (by simp) (by simp)]

theorem traceIndep_tf {α : Type} {o₁ o₂ : Nat → Params → Except String α}
    (H : SameShape o₁ o₂) (idx : Nat) (p : Params) :
    (createResponseWithFallback o₁ idx p true false).2 =
      (createResponseWithFallback o₂ idx p true false).2 := by
  rcases H idx p with ⟨r, h1, h2⟩ | ⟨e1, e2, h1, h2⟩
  · rw [cRWF_ok h1, cRWF_ok h2]
  · cases he : truthyEffort p with
    | false =>
      rw [cRWF_err_term h1 (by simp) (by simp [he]), cRWF_err_term h2 (by simp) (by simp [he])]
    | true =>
      rw [cRWF_err_strip2 h1 (by simp) he, cRWF_err_strip2 h2 (by simp) he]
      simp [traceIndep_tt H (idx + 1) (dropReasoning p)]

theorem traceIndep_ft {α : Type} {o₁ o₂ : Nat → Params → Except String α}
    (H : SameShape o₁ o₂) (idx : Nat) (p : Params) :
    (createResponseWithFallback o₁ idx p false true).2 =
      (createResponseWithFallback o₂ idx p false true).2 := by
  rcases H idx p with ⟨r, h1, h2⟩ | ⟨e1, e2, h1, h2⟩
  · rw [cRWF_ok h1, cRWF_ok h2]
  · cases hv : truthyVerbosity p with
    | false =>
      rw [cRWF_err_term h1 (by simp [hv]) (by simp), cRWF_err_term h2 (by simp [hv]) (by simp)]
    | true =>
      rw [cRWF_err_strip1 h1 hv true, cRWF_err_strip1 h2 hv true]
      simp [traceIndep_tt H (idx + 1) (stripVerb p)]

theorem traceIndep_ff {α : Type} {o₁ o₂ : Nat → Params → Except String α}
    (H : SameShape o₁ o₂) (idx : Nat) (p : Params) :
    (createResponseWithFallback o₁ idx p false false).2 =
      (createResponseWithFallback o₂ idx p false false).2 := by
  rcases H idx p with ⟨r, h1, h2⟩ | ⟨e1, e2, h1, h2⟩
  · rw [cRWF_ok h1, cRWF_ok h2]
  · cases hv : truthyVerbosity p with
    | true =>
      rw [cRWF_err_strip1 h1 hv false, cRWF_err_strip1 h2 hv false]
      simp [traceIndep_tf H (idx + 1) (stripVerb p)]
    | false =>
      cases he : truthyEffort p with
      | false =>
        rw [cRWF_err_term h1 (by simp [hv]) (by simp [he]),
          cRWF_err_term h2 (by simp [hv]) (by simp [he])]
      | true =>
        rw [cRWF_err_strip2 h1 (by simp [hv]) he, cRWF_err_strip2 h2 (by simp [hv]) he]
        simp [traceIndep_tt H (idx + 1) (dropReasoning p)]

/-- C2: whenever the upstream call fails — whatever the error message, since
the error value is universally quantified and the classification never gates
anything — the invoker (1) retries with `verbosity` removed and
`strippedVerbosity = true`, reasoning flag unchanged, when `text.verbosity` is
present (truthy) and not yet stripped; (2) otherwise retries with the whole
`reasoning` object removed and both flags true when `reasoning.effort` is
present and not yet stripped; (3) otherwise re-raises the failure unchanged.
Moreover two oracles that differ only in error messages produce identical
attempt sequences: the message-classification (`isUnknownParam`) never gates
the retry. -/
theorem claim2_fallback_steps {α : Type} :
    (∀ (o : Nat → Params → Except String α) (idx : Nat) (p : Params) (sv sr : Bool)
        (e : String), o idx p = .error e →
      ((sv = false ∧ truthyVerbosity p = true) →
        createResponseWithFallback o idx p sv sr =
          ((createResponseWithFallback o (idx + 1) (stripVerb p) true sr).1,
            p :: (createResponseWithFallback o (idx + 1) (stripVerb p) true sr).2)) ∧
      (¬(sv = false ∧ truthyVerbosity p = true) →
        (sr = false ∧ truthyEffort p = true) →
        createResponseWithFallback o idx p sv sr =
          ((createResponseWithFallback o (idx + 1) (dropReasoning p) true true).1,
            p :: (createResponseWithFallback o (idx + 1) (dropReasoning p) true true).2)) ∧
      (¬(sv = false ∧ truthyVerbosity p = true) →
        ¬(sr = false ∧ truthyEffort p = true) →
        createResponseWithFallback o idx p sv sr = (.error e, [p]))) ∧
    (∀ (o₁ o₂ : Nat → Params → Except String α), SameShape o₁ o₂ →
      ∀ (idx : Nat) (p : Params) (sv sr : Bool),
        (createResponseWithFallback o₁ idx p sv sr).2 =
          (createResponseWithFallback o₂ idx p sv sr).2) := by
  constructor
  · intro o idx p sv sr e h
    refine ⟨?_, ?_, ?_⟩
    · rintro ⟨rfl, hv⟩
      exact cRWF_err_strip1 h hv sr
    · rintro hn ⟨rfl, he⟩
      have hcond : (!sv && truthyVerbosity p) = false := by
        cases sv <;> simp_all
      exact cRWF_err_strip2 h hcond he
    · intro hn1 hn2
      have hcond1 : (!sv && truthyVerbosity p) = false := by
        cases sv <;> simp_all
      have hcond2 : (!sr && truthyEffort p) = false := by
        cases sr <;> simp_all
      exact cRWF_err_term h hcond1 hcond2
  · intro o₁ o₂ H idx p sv sr
    cases sv <;> cases sr
    · exact traceIndep_ff H idx p
    · exact traceIndep_ft H idx p
    · exact traceIndep_tf H idx p
    · exact traceIndep_tt H idx p

/-- C8: the caller's `params` value is never mutated — each fallback works on
a copy produced by a pure transformation.  `stripVerb` changes only the (fresh
copy of the) `text` object, removing exactly `verbosity`; `dropReasoning`
removes exactly the `reasoning` object; and every attempt sequence starts
with the original `params` and advances only by these two copy-producing
transformations. -/
theorem claim8_no_mutation (p : Params) :
    ((stripVerb p).model = p.model ∧ (stripVerb p).input = p.input ∧
      (stripVerb p).reasoning = p.reasoning ∧
      (stripVerb p).max_output_tokens = p.max_output_tokens ∧
      (stripVerb p).temperature = p.temperature ∧
      (stripVerb p).text = some { verbosity := none }) ∧
    ((dropReasoning p).model = p.model ∧ (dropReasoning p).input = p.input ∧
      (dropReasoning p).text = p.text ∧
      (dropReasoning p).max_output_tokens = p.max_output_tokens ∧
      (dropReasoning p).temperature = p.temperature ∧
      (dropReasoning p).reasoning = none) ∧
    (∀ (α : Type) (o : Nat → Params → Except String α),
      (createResponseWithFallback o 0 p false false).2.head? = some p ∧
      List.Chain' (fun a b => b = stripVerb a ∨ b = dropReasoning a)
        (createResponseWithFallback o 0 p false false).2) := by
  refine ⟨⟨rfl, rfl, rfl, rfl, rfl, rfl⟩, ⟨rfl, rfl, rfl, rfl, rfl, rfl⟩, ?_⟩
  intro α o
  rcases cRWF_trace_cases o p with h | h | h | h <;> rw [h] <;> simp

theorem claim2_fallback_steps_witness :
    oFailW 0 pW = Except.error "boom" ∧
    (false = false ∧ truthyVerbosity pW = true) ∧
    createResponseWithFallback oFailW 0 pW false false =
      ((createResponseWithFallback oFailW 1 (stripVerb pW) true false).1,
        pW :: (createResponseWithFallback oFailW 1 (stripVerb pW) true false).2) := by
  refine ⟨rfl, ⟨rfl, by decide⟩, ?_⟩
  exact (claim2_fallback_steps.1 oFailW 0 pW false false "boom" rfl).1 ⟨rfl, by decide⟩

/-- C1: on `/api/suggest` output with one `CLO<n>:` line and two plain lines
`U1`, `U2` and requested count 3, the padding loop borrows the *same* first
unclaimed line twice (`U1` appears in items 2 and 3; `U2` is never used),
because the loop recomputes `extras` from scratch on every iteration and the
`shift()` only mutates that local copy.  The second conjunct shows the
specific two-matching/one-unmatched example of the claim does hold. -/
theorem claim1_borrow_repeats :
    suggestItems "CLO1: A\nU1\nU2" 3 = ["CLO1: A", "CLO2: U1", "CLO3: U1"] ∧
    suggestItems "CLO1: A\nCLO2: B\nU" 3 = ["CLO1: A", "CLO2: B", "CLO3: U"] := by
  decide

/-- C7: `linesToItems` splits on line breaks, trims, drops empty and
`#`-heading lines, then strips one numbered-list marker and then one bullet
marker from each surviving line in order; on the claim's example it returns
exactly the three cleaned lines. -/
theorem claim7_linesToItems :
    linesToItems "1. Describe X\n- Explain Y\n\nCLO3: Apply Z" =
      ["Describe X", "Explain Y", "CLO3: Apply Z"] ∧
    ∀ text, linesToItems text =
      (((splitLinesJS text).map jsTrim).filter fun s => s != "" && !hashTest s).map
        fun s => stripBulletMarker (stripNumMarker s) :=
  ⟨by decide, fun _ => rfl⟩

/-- C4 counterexample: with an empty body, the suggest prompt renders the
absent `plo` field as the literal word `undefined` (the prompt equals the one
built with `plo = "undefined"` and differs from the one built with
`plo = ""`), contradicting "absent fields render as empty substrings, never
as the literal word 'undefined'". -/
theorem claim4_undefined_cx :
    buildSuggestPrompt noneSuggestReq =
      buildSuggestPrompt { noneSuggestReq with plo := some "undefined" } ∧
    buildSuggestPrompt noneSuggestReq ≠
      buildSuggestPrompt { noneSuggestReq with plo := some "" } ∧
    strIncludes (buildSuggestPrompt noneSuggestReq) "undefined" = true := by
  refine ⟨rfl, by decide, by decide⟩

/-- C4 (amended): the prompt builders are pure functions of the request
fields (determinism is inherent to the extracted functions); each optional
field that carries a destructuring or `||`-default (`ploText`, `cloText`,
`course`) renders, when absent, exactly as the empty string/empty object —
but the `plo` field has no default and renders, when absent, as the literal
word `undefined` in both the suggest and evaluate prompts. -/
theorem claim4_amended_rendering (r : SuggestReq) (er : EvaluateReq) :
    (buildSuggestPrompt { r with plo := none } =
      buildSuggestPrompt { r with plo := some "undefined" }) ∧
    (buildSuggestPrompt { r with ploText := none } =
      buildSuggestPrompt { r with ploText := some "" }) ∧
    (buildSuggestPrompt { r with course := none } =
      buildSuggestPrompt { r with course := some emptyCourse }) ∧
    (buildEvaluatePrompt { er with plo := none } =
      buildEvaluatePrompt { er with plo := some "undefined" }) ∧
    (buildEvaluatePrompt { er with ploText := none } =
      buildEvaluatePrompt { er with ploText := some "" }) ∧
    (buildEvaluatePrompt { er with cloText := none } =
      buildEvaluatePrompt { er with cloText := some "" }) ∧
    (buildEvaluatePrompt { er with course := none } =
      buildEvaluatePrompt { er with course := some emptyCourse }) :=
  ⟨rfl, rfl, rfl, rfl, rfl, rfl, rfl⟩

theorem jsSlice_length_le {α : Type} (l : List α) (e : Int) (h : 0 ≤ e) :
    ((jsSlice l e).length : Int) ≤ e := by
  simp [jsSlice, not_lt.mpr h, List.length_take]
  omega

theorem jsSlice_nil {α : Type} (e : Int) : jsSlice ([] : List α) e = [] := by
  simp [jsSlice]

theorem suggestItems_empty (c : Int) : suggestItems "" c = [] := by
  have h0 : linesToItems "" = [] := by decide
  simp only [suggestItems, h0, List.filter_nil, jsSlice_nil, List.length_nil]
  generalize (c - ((0 : Nat) : Int)).toNat = n
  cases n with
  | zero => simp [fillLoop, jsSlice_nil]
  | succ m =>
    simp only [fillLoop, h0, List.filter_nil]
    split
    · simp [jsSlice_nil]
    · simp [jsSlice_nil]

/-- C5 counterexample: a present-but-zero `count` is *not* replaced by the
default 6 — the destructuring default fires only when the field is absent —
so the count governing the response is 0 (and likewise a negative count is
kept as-is). -/
theorem claim5_count_cx :
    reqCount (some 0) = 0 ∧ reqCount (some 0) ≠ 6 ∧
    suggestItems "CLO1: a\nCLO2: b" (reqCount (some 0)) = [] ∧
    reqCount (some (-3)) = -3 ∧ reqCount none = 6 := by
  decide

/-- C5 (amended): the default 6 applies exactly when the `count` field is
absent from the body; a present value (including zero or a negative number)
is used as-is.  Whenever the effective count is nonnegative, the returned
items list has length at most that count. -/
theorem claim5_amended_count (c : Option Int) (raw : String) (h : 0 ≤ reqCount c) :
    reqCount none = 6 ∧ (∀ n : Int, reqCount (some n) = n) ∧
    ((suggestItems raw (reqCount c)).length : Int) ≤ reqCount c :=
  ⟨rfl, fun _ => rfl, jsSlice_length_le _ _ h⟩

theorem claim5_amended_count_witness :
    0 ≤ reqCount none ∧
    ((suggestItems "CLO1: x" (reqCount none)).length : Int) ≤ reqCount none :=
  ⟨by decide, (claim5_amended_count none "CLO1: x" (by decide)).2.2⟩

/-! ### Dedup invariants for the verb pool -/

theorem dedupAux_sublist (l : List BloomEntry) :
    ∀ seen, List.Sublist (dedupAux seen l) l := by
  induction l with
  | nil => intro seen; simp [dedupAux]
  | cons it rest ih =>
    intro seen
    simp only [dedupAux]
    split
    · exact (ih seen).cons it
    · exact (ih _).cons₂ it

theorem dedupAux_keys (l : List BloomEntry) :
    ∀ seen x, x ∈ dedupAux seen l → seen.contains (lowerStr x.verb) = false := by
  induction l with
  | nil => intro seen x hx; simp [dedupAux] at hx
  | cons it rest ih =>
    intro seen x hx
    simp only [dedupAux] at hx
    split at hx
    · exact ih seen x hx
    · rcases List.mem_cons.mp hx with rfl | hmem
      · rename_i hc
        simpa using hc
      · have h2 := ih _ x hmem
        simp only [List.contains_cons, Bool.or_eq_false_iff] at h2
        exact h2.2

theorem dedupAux_pairwise (l : List BloomEntry) :
    ∀ seen, List.Pairwise (fun a b => lowerStr a.verb ≠ lowerStr b.verb)
      (dedupAux seen l) := by
  induction l with
  | nil => intro seen; simp [dedupAux]
  | cons it rest ih =>
    intro seen
    simp only [dedupAux]
    split
    · exact ih seen
    · refine List.Pairwise.cons ?_ (ih _)
      intro b hb
      have h2 := dedupAux_keys rest _ b hb
      simp only [List.contains_cons, Bool.or_eq_false_iff] at h2
      intro heq
      rw [heq] at h2
      simp at h2

theorem dedupAux_find (l : List BloomEntry) :
    ∀ seen (K : String), seen.contains K = false →
      (dedupAux seen l).find? (fun y => lowerStr y.verb == K) =
        l.find? (fun y => lowerStr y.verb == K) := by
  induction l with
  | nil => intro seen K _; simp [dedupAux]
  | cons it rest ih =>
    intro seen K hK
    simp only [dedupAux]
    by_cases hc : seen.contains (lowerStr it.verb) = true
    · rw [if_pos hc, ih seen K hK]
      have hne : (lowerStr it.verb == K) = false := by
        cases hbe : lowerStr it.verb == K
        · rfl
        · have : lowerStr it.verb = K := by simpa using hbe
          rw [this] at hc
          rw [hc] at hK
          cases hK
      simp [List.find?, hne]
    · rw [if_neg hc]
      cases hbe : lowerStr it.verb == K
      · simp only [List.find?, hbe]
        apply ih
        simp only [List.contains_cons, Bool.or_eq_false_iff]
        constructor
        · cases hKk : K == lowerStr it.verb
          · rfl
          · have : K = lowerStr it.verb := by simpa using hKk
            rw [this, beq_self_eq_true] at hbe
            cases hbe
        · exact hK
      · simp [List.find?, hbe]

theorem renderVerb_ne (it : BloomEntry) : renderVerb it ≠ "" := by
  intro h
  have hl : (renderVerb it).length = 0 := by rw [h]; rfl
  simp only [renderVerb, String.length_append] at hl
  have : (")" : String).length = 1 := rfl
  omega

theorem joinWith_ne (sep : String) (a : String) (rest : List String) (ha : a ≠ "") :
    joinWith sep (a :: rest) ≠ "" := by
  cases rest with
  | nil => simpa [joinWith] using ha
  | cons b r =>
    simp only [joinWith]
    intro h
    apply ha
    have hl : (a ++ sep ++ joinWith sep (b :: r)).length = 0 := by rw [h]; rfl
    simp only [String.length_append] at hl
    have ha0 : a.length = 0 := by omega
    cases a with
    | mk data =>
      cases data with
      | nil => rfl
      | cons c cs => simp [String.length] at ha0

theorem poolVerbs_ne (bv : List BloomRaw) (targets : List String)
    (h : filteredVerbs bv ≠ []) : poolVerbs bv targets ≠ [] := by
  simp only [poolVerbs]
  split
  · rename_i hlen
    intro hcontra
    rw [hcontra] at hlen
    simp at hlen
  · exact h

/-- C6 counterexample: a non-empty input pool whose single entry is the falsy
string `""` still gets the six default verbs substituted, contradicting
"the fixed six default verbs are substituted only when the input pool itself
is empty". -/
theorem claim6_default_cx :
    verbListFn 180 [BloomRaw.str ""] ["Remember", "Understand"] =
      joinWith ", " fallbackVerbs ∧
    ([BloomRaw.str ""] : List BloomRaw) ≠ [] := by
  constructor
  · decide
  · simp

/-- C6 (amended): for every verb pool and target level list, the verb list
rendered into the prompt is non-empty; the deduplicated pool (and its
180-truncation) has pairwise-distinct lower-cased verb texts, is a sublist of
the pool (order preserved), and keeps the first occurrence of each key;
entries of the wrong level are dropped exactly when at least one entry
matches the permitted levels; and the six default verbs are substituted
exactly when the *normalized* pool (`(bloomVerbs||[]).map(norm).filter(Boolean)`)
is empty — which can happen for a non-empty input pool consisting of falsy or
empty-verb entries. -/
theorem claim6_amended_pool (bv : List BloomRaw) (targets : List String) :
    (verbListFn 180 bv targets ≠ "") ∧
    (List.Pairwise (fun a b => lowerStr a.verb ≠ lowerStr b.verb)
      (dedupByVerb (poolVerbs bv targets))) ∧
    (List.Pairwise (fun a b => lowerStr a.verb ≠ lowerStr b.verb)
      ((dedupByVerb (poolVerbs bv targets)).take 180)) ∧
    (List.Sublist (dedupByVerb (poolVerbs bv targets)) (poolVerbs bv targets)) ∧
    (∀ x : BloomEntry,
      (dedupByVerb (poolVerbs bv targets)).find? (fun y => lowerStr y.verb == lowerStr x.verb) =
        (poolVerbs bv targets).find? (fun y => lowerStr y.verb == lowerStr x.verb)) ∧
    ((filteredVerbs bv).filter (fun x => targets.contains x.level) = [] →
      poolVerbs bv targets = filteredVerbs bv) ∧
    ((filteredVerbs bv).filter (fun x => targets.contains x.level) ≠ [] →
      poolVerbs bv targets = (filteredVerbs bv).filter (fun x => targets.contains x.level)) ∧
    (verbsForPromptFn 180 bv targets = "" ↔ filteredVerbs bv = []) := by
  refine ⟨?_, dedupAux_pairwise _ [], (dedupAux_pairwise _ []).sublist (List.take_sublist _ _),
    dedupAux_sublist _ [], fun x => dedupAux_find _ [] _ rfl, ?_, ?_, ?_⟩
  · -- non-emptiness of the rendered VERB_LIST
    simp only [verbListFn]
    split
    · decide
    · assumption
  · intro h
    simp only [poolVerbs, h]
    rfl
  · intro h
    simp only [poolVerbs]
    split
    · rfl
    · rename_i hlen
      exact absurd (List.length_pos.mpr h) hlen
  · -- verbsForPrompt is empty iff the normalized pool is empty
    constructor
    · intro h
      by_contra hne
      have hp := poolVerbs_ne bv targets hne
      rcases hq : poolVerbs bv targets with _ | ⟨x, l⟩
      · exact hp hq
      · have hd : dedupByVerb (x :: l) = x :: dedupAux [lowerStr x.verb] l := by
          simp [dedupByVerb, dedupAux]
        rw [verbsForPromptFn, hq, hd] at h
        rw [List.take_succ_cons, List.map_cons] at h
        exact joinWith_ne _ _ _ (renderVerb_ne x) h
    · intro h
      simp only [verbsForPromptFn, poolVerbs, h]
      simp [dedupByVerb, dedupAux, joinWith]

theorem claim6_amended_pool_witness :
    (filteredVerbs bvW).filter (fun x => targetsW.contains x.level) = [] ∧
    poolVerbs bvW targetsW = filteredVerbs bvW :=
  ⟨by decide, (claim6_amended_pool bvW targetsW).2.2.2.2.2.1 (by decide)⟩

/-- C9: whenever the fallback invoker fails terminally — for every request
body and every error value, so in particular independently of the error's
content — each handler responds with HTTP 500 and the fixed tag body
(`suggest_failed` / `evaluate_failed` / `raw_failed`), nothing else. -/
theorem claim9_error_responses (cfg : Config) (o : Nat → Params → Except String Rsp) :
    (∀ (req : SuggestReq) (e : String),
      (createResponseWithFallback o 0 (suggestParams cfg req) false false).1 = .error e →
      suggestHandler cfg o req = { status := 500, body := .errTag "suggest_failed" }) ∧
    (∀ (req : EvaluateReq) (e : String),
      (createResponseWithFallback o 0 (evaluateParams cfg req) false false).1 = .error e →
      evaluateHandler cfg o req = { status := 500, body := .errTag "evaluate_failed" }) ∧
    (∀ (req : RawReq) (e : String),
      (createResponseWithFallback o 0 (rawParams cfg req) false false).1 = .error e →
      rawHandler cfg o req = { status := 500, body := .errTag "raw_failed" }) := by
  refine ⟨?_, ?_, ?_⟩
  · intro req e h
    simp only [suggestHandler]
    rcases hx : createResponseWithFallback o 0 (suggestParams cfg req) false false with ⟨res, tr⟩
    rw [hx] at h
    cases res with
    | ok r => simp at h
    | error e2 => simp
  · intro req e h
    simp only [evaluateHandler]
    rcases hx : createResponseWithFallback o 0 (evaluateParams cfg req) false false with ⟨res, tr⟩
    rw [hx] at h
    cases res with
    | ok r => simp at h
    | error e2 => simp
  · intro req e h
    simp only [rawHandler]
    rcases hx : createResponseWithFallback o 0 (rawParams cfg req) false false with ⟨res, tr⟩
    rw [hx] at h
    cases res with
    | ok r => simp at h
    | error e2 => simp

/-- C10: when the upstream call succeeds but carries no usable `output_text`
(absent or empty), every endpoint still answers 200: `/api/suggest` with
`items = []` and `raw = ""`, `/api/evaluate` and `/api/raw` with
`text = ""`. -/
theorem claim10_empty_output (cfg : Config) (o : Nat → Params → Except String Rsp) :
    (∀ (req : SuggestReq) (rsp : Rsp),
      (createResponseWithFallback o 0 (suggestParams cfg req) false false).1 = .ok rsp →
      rsp.output_text = none ∨ rsp.output_text = some "" →
      suggestHandler cfg o req =
        { status := 200, body := .suggestOk [] "" (pickModel cfg "suggest" req.model) }) ∧
    (∀ (req : EvaluateReq) (rsp : Rsp),
      (createResponseWithFallback o 0 (evaluateParams cfg req) false false).1 = .ok rsp →
      rsp.output_text = none ∨ rsp.output_text = some "" →
      evaluateHandler cfg o req =
        { status := 200, body := .textOk "" (pickModel cfg "evaluate" req.model) }) ∧
    (∀ (req : RawReq) (rsp : Rsp),
      (createResponseWithFallback o 0 (rawParams cfg req) false false).1 = .ok rsp →
      rsp.output_text = none ∨ rsp.output_text = some "" →
      rawHandler cfg o req =
        { status := 200, body := .textOk "" (jsOrStr req.model cfg.defaultModel) }) := by
  refine ⟨?_, ?_, ?_⟩
  · intro req rsp h hout
    simp only [suggestHandler]
    rcases hx : createResponseWithFallback o 0 (suggestParams cfg req) false false with ⟨res, tr⟩
    rw [hx] at h
    cases res with
    | error e => simp at h
    | ok r =>
      have hr : r = rsp := by simpa using h
      subst hr
      have hraw : r.output_text.getD "" = "" := by
        rcases hout with h1 | h1 <;> simp [h1]
      simp [hraw, suggestItems_empty]
  · intro req rsp h hout
    simp only [evaluateHandler]
    rcases hx : createResponseWithFallback o 0 (evaluateParams cfg req) false false with ⟨res, tr⟩
    rw [hx] at h
    cases res with
    | error e => simp at h
    | ok r =>
      have hr : r = rsp := by simpa using h
      subst hr
      have hraw : r.output_text.getD "" = "" := by
        rcases hout with h1 | h1 <;> simp [h1]
      simp [hraw]
  · intro req rsp h hout
    simp only [rawHandler]
    rcases hx : createResponseWithFallback o 0 (rawParams cfg req) false false with ⟨res, tr⟩
    rw [hx] at h
    cases res with
    | error e => simp at h
    | ok r =>
      have hr : r = rsp := by simpa using h
      subst hr
      have hraw : r.output_text.getD "" = "" := by
        rcases hout with h1 | h1 <;> simp [h1]
      simp [hraw]

theorem claim9_error_responses_witness :
    (createResponseWithFallback oFailW 0 (suggestParams cfgW noneSuggestReq) false false).1 =
      Except.error "boom" ∧
    suggestHandler cfgW oFailW noneSuggestReq =
      { status := 500, body := ApiBody.errTag "suggest_failed" } := by
  have h3 : createResponseWithFallback oFailW 2
      (dropReasoning (stripVerb (suggestParams cfgW noneSuggestReq))) true true =
      (.error "boom", [dropReasoning (stripVerb (suggestParams cfgW noneSuggestReq))]) :=
    cRWF_err_term rfl (by simp) (by simp)
  have h2 : createResponseWithFallback oFailW 1
      (stripVerb (suggestParams cfgW noneSuggestReq)) true false =
      (.error "boom", [stripVerb (suggestParams cfgW noneSuggestReq),
        dropReasoning (stripVerb (suggestParams cfgW noneSuggestReq))]) := by
    rw [cRWF_err_strip2 rfl (by simp)
      (rfl : truthyEffort (stripVerb (suggestParams cfgW noneSuggestReq)) = true), h3]
  have h1 : createResponseWithFallback oFailW 0 (suggestParams cfgW noneSuggestReq)
      false false =
      (.error "boom", [suggestParams cfgW noneSuggestReq,
        stripVerb (suggestParams cfgW noneSuggestReq),
        dropReasoning (stripVerb (suggestParams cfgW noneSuggestReq))]) := by
    rw [cRWF_err_strip1 rfl
      (rfl : truthyVerbosity (suggestParams cfgW noneSuggestReq) = true) false, h2]
  have h : (createResponseWithFallback oFailW 0 (suggestParams cfgW noneSuggestReq)
      false false).1 = Except.error "boom" := by
    rw [h1]
  exact ⟨h, (claim9_error_responses cfgW oFailW).1 noneSuggestReq "boom" h⟩

theorem claim10_empty_output_witness :
    (createResponseWithFallback oEmptyW 0 (suggestParams cfgW noneSuggestReq) false false).1 =
      Except.ok { output_text := none } ∧
    ({ output_text := none } : Rsp).output_text = none ∧
    suggestHandler cfgW oEmptyW noneSuggestReq =
      { status := 200,
        body := .suggestOk [] "" (pickModel cfgW "suggest" noneSuggestReq.model) } := by
  have h : (createResponseWithFallback oEmptyW 0 (suggestParams cfgW noneSuggestReq)
      false false).1 = Except.ok { output_text := none } := by
    rw [cRWF_ok rfl]
  exact ⟨h, rfl, (claim10_empty_output cfgW oEmptyW).1 noneSuggestReq _ h (Or.inl rfl)⟩

end CmGpt
